import Mathlib

/-!
Verification of the video-pipeline repository (`axon-vision-ha`): a shallow
embedding of its data models, motion-detection algorithm, stage loops,
channel layer, protocol codec and log aggregator, with theorems settling
the specification claims.

Sources embedded:
- `src/core/data_models.py` (FrameData, Detection, DetectionResult, SystemMessage, LogMessage)
- `src/components/detector/motion_detector.py` (MotionDetector)
- `src/communication/protocol.py` (MessageProtocol.deserialize)
- `src/communication/zmq_manager.py` (ZMQManager)
- `src/utils/centralized_logger.py` (CentralizedLogger)
- `src/components/display/video_display.py` and `web_streamer.py` (stage loops)
-/

namespace VMD

/-- Values stored in the Python metadata dicts attached to frames and
results (`metadata: Dict[str, Any]`): the code stores strings, ints and
floats there; floats are modelled as rationals. -/
inductive MetaVal
  | s (v : String)
  | i (v : Int)
  | q (v : Rat)
deriving DecidableEq

/-- A BGR colour frame (`np.ndarray` of uint8 triples).  The detector only
ever hands it to `cv2.cvtColor`; we model it as its flat pixel list. -/
structure BGRFrame where
  pixels : List (Nat × Nat × Nat)
deriving DecidableEq

/-- A single-channel luminance image (`np.ndarray` of uint8), flat pixel
list; each pixel is 0..255. -/
abbrev GrayImage := List Nat

/-- `FrameData` from `src/core/data_models.py`. -/
structure FrameData where
  frame_id : Int
  timestamp : Rat
  frame : BGRFrame
  metadata : List (String × MetaVal)
deriving DecidableEq

/-- `Detection` from `src/core/data_models.py`: bbox (x, y, width, height),
confidence, type and integer area. -/
structure Detection where
  bbox : Nat × Nat × Nat × Nat
  confidence : Rat
  detection_type : String
  area : Int
deriving DecidableEq

/-- `DetectionResult` from `src/core/data_models.py`. -/
structure DetectionResult where
  frame_id : Int
  timestamp : Rat
  frame : BGRFrame
  detections : List Detection
  processing_time : Rat
  metadata : List (String × MetaVal)
deriving DecidableEq

/-- `DetectionResult.create` from `src/core/data_models.py`: copies the
frame id, timestamp and pixel buffer from the originating `FrameData`. -/
def DetectionResult.create (frame_data : FrameData) (detections : List Detection)
    (processing_time : Rat) (metadata : List (String × MetaVal)) : DetectionResult :=
  { frame_id := frame_data.frame_id
    timestamp := frame_data.timestamp
    frame := frame_data.frame
    detections := detections
    processing_time := processing_time
    metadata := metadata }

/-- Python `int(x)` on a (nonnegative-or-negative) float: truncation toward
zero, modelled on rationals. -/
def pyInt (q : Rat) : Int :=
  if 0 ≤ q then q.floor else -((-q).floor)

/-- An OpenCV contour as observed by the detector: the code reads exactly
two facts off each contour object, `cv2.contourArea(contour)` (a
nonnegative float, modelled as a rational) and `cv2.boundingRect(contour)`
(x, y, w, h).  The extraction itself (`cv2.findContours`) is an external
library call, kept abstract in `VisionOps`. -/
structure Contour where
  area : Rat
  x : Nat
  y : Nat
  w : Nat
  h : Nat
deriving DecidableEq

/-- One pixel of `cv2.threshold(diff, threshold, 255, cv2.THRESH_BINARY)`
(`motion_detector.py` line 199): the destination pixel is `maxval` when the
source pixel is STRICTLY greater than `thresh`, else 0. -/
def threshBinaryPixel (thresh : Int) (maxval : Nat) (p : Nat) : Nat :=
  if thresh < (p : Int) then maxval else 0

/-- The whole binarization step: `cv2.threshold(diff, self.threshold, 255,
cv2.THRESH_BINARY)[1]` applied over the difference image. -/
def threshBinary (thresh : Int) (img : GrayImage) : GrayImage :=
  img.map (threshBinaryPixel thresh 255)

/-- `cv2.absdiff(gray_frame, prev_frame)` (`motion_detector.py` line 196):
per-pixel absolute difference of two uint8 images. -/
def absdiff (a b : GrayImage) : GrayImage :=
  List.zipWith (fun x y => max x y - min x y) a b

/-- Constructor parameters of `MotionDetector.__init__`
(`motion_detector.py` lines 20-32) with their source defaults. -/
structure MotionDetectorParams where
  threshold : Int := 25
  min_area : Int := 500
  dilate_iterations : Nat := 2
deriving DecidableEq

/-- `confidence = min(1.0, area / 10000.0)` (`motion_detector.py` line 218),
in exact rational arithmetic. -/
def confidenceOfArea (area : Rat) : Rat :=
  min 1 (area / 10000)

/-- The `Detection(...)` built for one accepted contour
(`motion_detector.py` lines 215-225): bounding box, normalized confidence,
type `"motion"` and truncated integer area. -/
def detectionOfContour (c : Contour) : Detection :=
  { bbox := (c.x, c.y, c.w, c.h)
    confidence := confidenceOfArea c.area
    detection_type := "motion"
    area := pyInt c.area }

/-- The contour loop of `_process_frame` (`motion_detector.py` lines
209-226): each contour with `area >= self.min_area` contributes one
detection, in contour order. -/
def detectionsFromContours (min_area : Int) (cnts : List Contour) : List Detection :=
  cnts.filterMap (fun c =>
    if (min_area : Rat) ≤ c.area then some (detectionOfContour c) else none)

/-- The external vision primitives the detector calls: BGR-to-gray
conversion (`cv2.cvtColor`), mask dilation (`cv2.dilate`, iteration count)
and contour extraction (`cv2.findContours` + `imutils.grab_contours`).
These are OpenCV library calls, abstract here; the repository's own
arithmetic (`absdiff`, `threshBinary`, the contour filter) is concrete. -/
structure VisionOps where
  cvtColorGray : BGRFrame → GrayImage
  dilate : GrayImage → Nat → GrayImage
  findContours : GrayImage → List Contour

/-- The mutable per-stream state of `MotionDetector` touched by the
processing path: `prev_frame`, `frame_counter`, `total_detections`. -/
structure DetectorState where
  prev_frame : Option GrayImage
  frame_counter : Nat
  total_detections : Nat
deriving DecidableEq

/-- `MotionDetector._process_frame` (`motion_detector.py` lines 174-249):
increments `frame_counter`, converts to gray; on the first frame stores it
and emits zero detections; otherwise runs absdiff → threshold → dilate →
contours → area filter; always replaces `prev_frame` with the current gray
frame; builds the result with `processing_time = 0` (line 232). -/
def process_frame (ops : VisionOps) (p : MotionDetectorParams)
    (st : DetectorState) (frame_data : FrameData) : DetectorState × DetectionResult :=
  let gray_frame := ops.cvtColorGray frame_data.frame
  let st1 : DetectorState := { st with frame_counter := st.frame_counter + 1 }
  match st1.prev_frame with
  | none =>
      ({ st1 with prev_frame := some gray_frame },
       DetectionResult.create frame_data [] 0
         [("detection_method", .s "frame_difference"), ("threshold", .i p.threshold),
          ("min_area", .i p.min_area), ("contours_found", .i 0)])
  | some prev =>
      let diff := absdiff gray_frame prev
      let mask := threshBinary p.threshold diff
      let dilated := ops.dilate mask p.dilate_iterations
      let cnts := ops.findContours dilated
      let detections := detectionsFromContours p.min_area cnts
      ({ st1 with prev_frame := some gray_frame },
       DetectionResult.create frame_data detections 0
         [("detection_method", .s "frame_difference"), ("threshold", .i p.threshold),
          ("min_area", .i p.min_area), ("contours_found", .i detections.length)])

/-- Default-constructed detector parameters (threshold 25, min_area 500,
dilate_iterations 2). -/
def defaultParams : MotionDetectorParams := {}

/-- Fresh detector processing state, as reset by `start_detection`. -/
def initDS : DetectorState := { prev_frame := none, frame_counter := 0, total_detections := 0 }

/-- Trivial concrete vision primitives, used to instantiate witnesses. -/
def opsTriv : VisionOps :=
  { cvtColorGray := fun f => f.pixels.map (fun px => px.1)
    dilate := fun g _ => g
    findContours := fun _ => [] }

/-- A concrete frame for witnesses. -/
def fd0 : FrameData :=
  { frame_id := 0, timestamp := 0, frame := { pixels := [(1, 2, 3)] }, metadata := [] }

theorem detectionsFromContours_eq_filter_map (min_area : Int) (cnts : List Contour) :
    detectionsFromContours min_area cnts
      = (cnts.filter (fun c => (min_area : Rat) ≤ c.area)).map detectionOfContour := by
  induction cnts with
  | nil => rfl
  | cons c rest ih =>
      by_cases h : (min_area : Rat) ≤ c.area <;>
        simp [detectionsFromContours, List.filter_cons, h] <;>
        simpa [detectionsFromContours] using ih

theorem confidenceOfArea_mono {a b : Rat} (h : a ≤ b) :
    confidenceOfArea a ≤ confidenceOfArea b := by
  unfold confidenceOfArea
  exact min_le_min le_rfl (by
    apply div_le_div_of_nonneg_right h
    norm_num)

theorem confidenceOfArea_saturates {a : Rat} (h : (10000 : Rat) ≤ a) :
    confidenceOfArea a = 1 := by
  unfold confidenceOfArea
  apply min_eq_left
  rw [le_div_iff₀ (by norm_num : (0:Rat) < 10000)]
  simpa using h

/-- C5: a detection is emitted for a contour iff its area is at least
`min_area` (inclusive, default 500); every emitted detection has
`confidence = min(1, area/10000)`, type `"motion"`, integer (truncated)
area and the contour's bounding box; confidence is monotone non-decreasing
in area and equals exactly 1 for every area ≥ 10000. -/
theorem C5_detection_emission (min_area : Int) (cnts : List Contour) :
    detectionsFromContours min_area cnts
        = (cnts.filter (fun c => (min_area : Rat) ≤ c.area)).map detectionOfContour
      ∧ (∀ c : Contour,
            (detectionOfContour c).confidence = min 1 (c.area / 10000)
          ∧ (detectionOfContour c).detection_type = "motion"
          ∧ (detectionOfContour c).area = pyInt c.area
          ∧ (detectionOfContour c).bbox = (c.x, c.y, c.w, c.h))
      ∧ (∀ a b : Rat, a ≤ b → confidenceOfArea a ≤ confidenceOfArea b)
      ∧ (∀ a : Rat, (10000 : Rat) ≤ a → confidenceOfArea a = 1) := by
  refine ⟨detectionsFromContours_eq_filter_map min_area cnts, ?_, ?_, ?_⟩
  · intro c
    exact ⟨rfl, rfl, rfl, rfl⟩
  · intro a b h
    exact confidenceOfArea_mono h
  · intro a h
    exact confidenceOfArea_saturates h

/-- C3 counterexample: the binarization is STRICT.  With the default
threshold 25, a difference pixel equal to exactly 25 is classified as
background (value 0 after `THRESH_BINARY`, foreground would be 255),
refuting "difference ≥ threshold is foreground; a pixel whose difference
equals exactly the threshold is foreground". -/
theorem C3_threshold_boundary_cex :
    threshBinaryPixel 25 255 25 = 0 ∧ threshBinary 25 [25] = [0] := by
  constructor <;> rfl

/-- C3 (amended): a pixel of the absolute-difference image is foreground
(255 in the binary mask) iff its value is STRICTLY greater than the
threshold; a pixel equal to the threshold is background. -/
theorem C3_binarize_strict (t : Int) (img : GrayImage) (i : Nat)
    (h : i < img.length) (h2 : i < (threshBinary t img).length) :
    ((threshBinary t img).get ⟨i, h2⟩ = 255 ↔ t < (img.get ⟨i, h⟩ : Int))
      ∧ threshBinaryPixel t 255 t.toNat = (if t < (t.toNat : Int) then 255 else 0) := by
  constructor
  · unfold threshBinary
    rw [List.get_map]
    unfold threshBinaryPixel
    by_cases hc : t < ((img.get ⟨i, h⟩ : Nat) : Int) <;> simp [hc]
  · rfl

/-- Witness for C3_binarize_strict at a concrete image. -/
theorem C3_binarize_strict_witness :
    ((threshBinary 25 [30, 25]).get ⟨0, by decide⟩ = 255
        ↔ (25 : Int) < ((([30, 25] : GrayImage).get ⟨0, by decide⟩ : Nat) : Int))
      ∧ threshBinaryPixel 25 255 (Int.toNat 25) = (if (25:Int) < ((Int.toNat 25 : Nat) : Int) then 255 else 0) :=
  C3_binarize_strict 25 [30, 25] 0 (by decide) (by decide)

/-- C6: processing a frame when no previous frame is stored emits a result
with zero detections and stores the current frame's luminance image as the
reference for the next frame. -/
theorem C6_first_frame (ops : VisionOps) (p : MotionDetectorParams)
    (st : DetectorState) (fd : FrameData) (h : st.prev_frame = none) :
    (process_frame ops p st fd).2.detections = []
      ∧ (process_frame ops p st fd).1.prev_frame = some (ops.cvtColorGray fd.frame) := by
  simp [process_frame, h, DetectionResult.create]

/-- Witness for C6_first_frame on a fresh detector state. -/
theorem C6_first_frame_witness :
    initDS.prev_frame = none
      ∧ ((process_frame opsTriv defaultParams initDS fd0).2.detections = []
          ∧ (process_frame opsTriv defaultParams initDS fd0).1.prev_frame
              = some (opsTriv.cvtColorGray fd0.frame)) :=
  ⟨rfl, C6_first_frame opsTriv defaultParams initDS fd0 rfl⟩

/-- One observed iteration input of `MotionDetector._detection_loop`
(`motion_detector.py` lines 114-172).  `stop` models the `stop_event` flag
being observed set at the loop head; `timeout` a `receive` returning
`None`; `sys` / `frame` the two message kinds the loop inspects; `crash` an
exception escaping the loop body (caught by the outer `try`). -/
inductive LoopInput
  | stop
  | timeout
  | sys (message_type : String) (payload : List (String × Int))
  | frame (fd : FrameData)
  | crash
deriving DecidableEq

/-- A message the detector or display pushes downstream: either a
`DetectionResult` (`send_detection_result`) or a `SystemMessage` with an
integer-valued payload dict (`send_system_message`). -/
inductive DetSent
  | result (r : DetectionResult)
  | system (message_type : String) (payload : List (String × Int))
deriving DecidableEq

/-- Discriminates the system (control) messages in a send trace. -/
def DetSent.isSystemMsg : DetSent → Bool
  | .system _ _ => true
  | .result _ => false

/-- The `while not self.stop_event.is_set()` body of `_detection_loop`
(`motion_detector.py` lines 117-153), run over a finite observation of its
inputs, returning the final detector state and the messages sent from
inside the loop.  A timeout continues; a non-`end_of_stream` system message
continues; `end_of_stream` breaks; a frame is processed by
`process_frame`, its result sent downstream, and `total_detections` is
incremented by the result's detection count when positive; `stop` and
`crash` end the loop (an exhausted input list models the thread being
stopped). -/
def detection_loop_body (ops : VisionOps) (p : MotionDetectorParams) :
    DetectorState → List LoopInput → DetectorState × List DetSent
  | st, [] => (st, [])
  | st, .stop :: _ => (st, [])
  | st, .timeout :: rest => detection_loop_body ops p st rest
  | st, .sys mt _ :: rest =>
      if mt = "end_of_stream" then (st, [])
      else detection_loop_body ops p st rest
  | st, .frame fd :: rest =>
      let pr := process_frame ops p st fd
      let st2 :=
        if pr.2.detections.length > 0 then
          { pr.1 with total_detections := pr.1.total_detections + pr.2.detections.length }
        else pr.1
      let cont := detection_loop_body ops p st2 rest
      (cont.1, .result pr.2 :: cont.2)
  | st, .crash :: _ => (st, [])

/-- The `end_of_stream` message the detector's `finally` block constructs
(`motion_detector.py` lines 161-168): payload is this stage's own
`frame_counter` and `total_detections` only. -/
def endOfStreamMessage (st : DetectorState) : DetSent :=
  .system "end_of_stream"
    [("total_frames_processed", (st.frame_counter : Int)),
     ("total_detections", (st.total_detections : Int))]

/-- A full run of `_detection_loop`: the loop body followed by the
`finally` block, which always sends exactly one `end_of_stream` system
message carrying the detector's current counters
(`motion_detector.py` lines 158-172). -/
def detection_loop (ops : VisionOps) (p : MotionDetectorParams)
    (st : DetectorState) (inputs : List LoopInput) : DetectorState × List DetSent :=
  let r := detection_loop_body ops p st inputs
  (r.1, r.2 ++ [endOfStreamMessage r.1])

theorem detection_loop_body_no_system (ops : VisionOps) (p : MotionDetectorParams) :
    ∀ (inputs : List LoopInput) (st : DetectorState),
      (detection_loop_body ops p st inputs).2.filter DetSent.isSystemMsg = [] := by
  intro inputs
  induction inputs with
  | nil => intro st; rfl
  | cons x rest ih =>
      intro st
      cases x with
      | stop => rfl
      | timeout => simpa [detection_loop_body] using ih st
      | sys mt pl =>
          by_cases h : mt = "end_of_stream"
          · simp [detection_loop_body, h]
          · simp only [detection_loop_body, if_neg h]
            exact ih st
      | frame fd => simp [detection_loop_body, DetSent.isSystemMsg, ih]
      | crash => rfl

theorem detection_loop_body_result_pt_zero (ops : VisionOps) (p : MotionDetectorParams) :
    ∀ (inputs : List LoopInput) (st : DetectorState) (r : DetectionResult),
      DetSent.result r ∈ (detection_loop_body ops p st inputs).2 → r.processing_time = 0 := by
  intro inputs
  induction inputs with
  | nil => intro st r h; simp [detection_loop_body] at h
  | cons x rest ih =>
      intro st r h
      cases x with
      | stop => simp [detection_loop_body] at h
      | timeout => exact ih st r (by simpa [detection_loop_body] using h)
      | sys mt pl =>
          by_cases hmt : mt = "end_of_stream"
          · simp [detection_loop_body, hmt] at h
          · exact ih st r (by simpa [detection_loop_body, hmt] using h)
      | frame fd =>
          simp only [detection_loop_body, List.mem_cons] at h
          rcases h with h | h
          · have hz : (process_frame ops p st fd).2.processing_time = 0 := by
              unfold process_frame
              cases hpf : st.prev_frame <;> simp [hpf, DetectionResult.create]
            rw [show r = (process_frame ops p st fd).2 from (DetSent.result.injEq _ _).mp h]
            exact hz
          · exact ih _ r h
      | crash => simp [detection_loop_body] at h

/-- C9: every terminating run of the detector loop — whether it ends by
receiving `end_of_stream`, by cooperative cancellation, or by an internal
exception — sends exactly one `end_of_stream` system message downstream,
as the last message of the run, carrying the detector's final
`frame_counter` and `total_detections`. -/
theorem C9_eos_on_every_exit (ops : VisionOps) (p : MotionDetectorParams)
    (st : DetectorState) (inputs : List LoopInput) :
    (detection_loop ops p st inputs).2.filter DetSent.isSystemMsg
        = [endOfStreamMessage (detection_loop ops p st inputs).1]
      ∧ (detection_loop ops p st inputs).2.getLast?
          = some (endOfStreamMessage (detection_loop ops p st inputs).1) := by
  unfold detection_loop
  constructor
  · simp [List.filter_append, detection_loop_body_no_system ops p inputs st,
      DetSent.isSystemMsg, endOfStreamMessage]
  · simp

/-- C10: the `processing_time` of every `DetectionResult` the detector
emits is 0: `_process_frame` hard-codes `processing_time = 0` in the
result it creates, and `_detection_loop` measures the per-frame latency
only after the result exists and never writes it back, so every result in
any send trace of the loop carries `processing_time = 0`. -/
theorem C10_processing_time_always_zero :
    (∀ (ops : VisionOps) (p : MotionDetectorParams) (st : DetectorState) (fd : FrameData),
        (process_frame ops p st fd).2.processing_time = 0)
      ∧ (∀ (ops : VisionOps) (p : MotionDetectorParams) (st : DetectorState)
            (inputs : List LoopInput) (r : DetectionResult),
          DetSent.result r ∈ (detection_loop ops p st inputs).2 → r.processing_time = 0) := by
  constructor
  · intro ops p st fd
    unfold process_frame
    cases hpf : st.prev_frame <;> simp [hpf, DetectionResult.create]
  · intro ops p st inputs r h
    unfold detection_loop at h
    simp only [List.mem_append, List.mem_singleton] at h
    rcases h with h | h
    · exact detection_loop_body_result_pt_zero ops p inputs st r h
    · exact absurd h (by simp [endOfStreamMessage])

/-- One observed iteration input of `VideoDisplay._display_loop`
(`video_display.py` lines 143-193): timeouts, system messages, detection
results, or the user pressing ESC. -/
inductive DispInput
  | timeout
  | sys (message_type : String) (payload : List (String × Int))
  | result (r : DetectionResult)
  | esc
deriving DecidableEq

/-- The display loop's send trace (`video_display.py` lines 146-187): on
`end_of_stream` it forwards the received system message itself to the web
sender (when one exists) and breaks; on a `DetectionResult` it forwards
the result with its frame replaced by the rendered overlay frame
(`_process_frame` + `_forward_to_web`); timeouts and other system messages
continue; ESC breaks.  `render` stands for the external OpenCV overlay
drawing. -/
def display_loop (render : DetectionResult → BGRFrame) (web_sender : Bool) :
    List DispInput → List DetSent
  | [] => []
  | .timeout :: rest => display_loop render web_sender rest
  | .sys mt pl :: rest =>
      if mt = "end_of_stream" then (if web_sender then [.system mt pl] else [])
      else display_loop render web_sender rest
  | .result r :: rest =>
      .result { r with frame := render r } :: display_loop render web_sender rest
  | .esc :: _ => []

/-- Mutable state of `WebStreamer._receive_loop` (`web_streamer.py` lines
259-286): the single-slot latest JPEG frame and a received counter. -/
structure WebStreamerState where
  current_frame_data : Option BGRFrame
  frames_received : Nat
deriving DecidableEq

/-- One observed iteration input of `WebStreamer._receive_loop`. -/
inductive WebInput
  | timeout
  | result (r : DetectionResult)
  | sys (message_type : String) (payload : List (String × Int))
deriving DecidableEq

/-- `WebStreamer._receive_loop` (`web_streamer.py` lines 259-286): updates
the single latest-frame slot on each `DetectionResult` (via the external
`_draw_detections` + JPEG encode, `drawJpeg`), breaks on `end_of_stream`,
and contains no send call at all — its downstream send trace is empty in
every branch. -/
def web_receive_loop (drawJpeg : DetectionResult → BGRFrame) :
    WebStreamerState → List WebInput → WebStreamerState × List DetSent
  | ws, [] => (ws, [])
  | ws, .timeout :: rest => web_receive_loop drawJpeg ws rest
  | ws, .result r :: rest =>
      web_receive_loop drawJpeg
        { current_frame_data := some (drawJpeg r), frames_received := ws.frames_received + 1 } rest
  | ws, .sys mt _ :: rest =>
      if mt = "end_of_stream" then (ws, [])
      else web_receive_loop drawJpeg ws rest

/-- C1 counterexample: the forwarded `end_of_stream` payload is NOT merged
with the upstream counters.  A fresh detector that receives upstream's
`end_of_stream` carrying `total_frames_processed = 100`,
`total_detections = 42` forwards an `end_of_stream` whose payload holds
only its own counters (both 0); the upstream values 100 and 42 are
discarded, so the forwarded payload does not carry the upstream counters
merged in. -/
theorem C1_no_merge_counterexample :
    (detection_loop opsTriv defaultParams initDS
        [.sys "end_of_stream" [("total_frames_processed", 100), ("total_detections", 42)]]).2
      = [DetSent.system "end_of_stream"
          [("total_frames_processed", 0), ("total_detections", 0)]]
    ∧ ((detection_loop opsTriv defaultParams initDS
          [.sys "end_of_stream" [("total_frames_processed", 100), ("total_detections", 42)]]).2.all
        (fun m => match m with
          | .system _ pl => pl.all (fun kv => decide (kv.2 ≠ 100 ∧ kv.2 ≠ 42))
          | .result _ => true)) = true := by
  constructor <;> rfl

/-- C1 (amended): every non-terminal stage that receives `end_of_stream`
forwards exactly one `end_of_stream` downstream before stopping, but no
counter merge happens: the detector's forwarded message carries only its
own final counters (upstream's payload is discarded), the display forwards
the received message unchanged (upstream's payload only, nothing of its
own added), and the terminal web streamer consumes `end_of_stream` without
forwarding anything. -/
theorem C1_eos_cascade (ops : VisionOps) (p : MotionDetectorParams)
    (st : DetectorState) (inputs : List LoopInput)
    (render : DetectionResult → BGRFrame) (upl : List (String × Int))
    (dinputs : List DispInput) (drawJpeg : DetectionResult → BGRFrame)
    (ws : WebStreamerState) (winputs : List WebInput) :
    (detection_loop ops p st inputs).2.filter DetSent.isSystemMsg
        = [endOfStreamMessage (detection_loop ops p st inputs).1]
      ∧ display_loop render true (.sys "end_of_stream" upl :: dinputs)
          = [.system "end_of_stream" upl]
      ∧ (web_receive_loop drawJpeg ws winputs).2 = [] := by
  refine ⟨?_, ?_, ?_⟩
  · unfold detection_loop
    simp [List.filter_append, detection_loop_body_no_system ops p inputs st,
      DetSent.isSystemMsg, endOfStreamMessage]
  · rfl
  · induction winputs generalizing ws with
    | nil => rfl
    | cons x rest ih =>
        cases x with
        | timeout => simpa [web_receive_loop] using ih ws
        | result r => simpa [web_receive_loop] using ih _
        | sys mt pl =>
            by_cases h : mt = "end_of_stream" <;> simp [web_receive_loop, h]
            exact ih ws

/-- What `json.loads(data.decode('utf-8'))` yields on a given byte string
in `MessageProtocol.deserialize` (`protocol.py` lines 94-164).  A byte
string is modelled by the outcomes of the two parsers the code applies.
`system` / `metrics` / `log` carry the complete well-formed body for the
recognized tag; `badBody` is a recognized tag whose body lacks a required
field (the `KeyError` path); `otherTag` is valid JSON whose `type` value
is not one of the three JSON-dispatched tags; `decodeFail` is a
`JSONDecodeError`/`UnicodeDecodeError`. -/
inductive JsonOutcome
  | system (message_type : String) (payload : List (String × Int)) (timestamp : Rat)
  | metrics (fps latency_ms memory_usage_mb cpu_usage_percent : Rat)
      (queue_depth : Int) (timestamp : Rat)
  | log (level component message : String) (timestamp : Rat) (frame_id : Option Int)
  | badBody (tag : String)
  | otherTag (tag : Option String)
  | decodeFail
deriving DecidableEq

/-- What `pickle.loads(data)` yields on the same byte string. -/
inductive PickleOutcome
  | frame (fd : FrameData)
  | detectionResult (r : DetectionResult)
  | otherTag (tag : Option String)
  | loadFail
deriving DecidableEq

/-- A byte string as observed by `deserialize`: the pair of its JSON-parse
outcome and its pickle-parse outcome. -/
structure WireBytes where
  json : JsonOutcome
  pickle : PickleOutcome
deriving DecidableEq

/-- The message values `deserialize` can return. -/
inductive PyMessage
  | systemMessage (message_type : String) (payload : List (String × Int)) (timestamp : Rat)
  | performanceMetrics (fps latency_ms memory_usage_mb cpu_usage_percent : Rat)
      (queue_depth : Int) (timestamp : Rat)
  | logMessage (level component message : String) (timestamp : Rat) (frame_id : Option Int)
  | frameData (fd : FrameData)
  | detectionResult (r : DetectionResult)
deriving DecidableEq

/-- The error kinds named by the spec's taxonomy.  The codebase defines and
raises only `ValueError` (`protocol.py` lines 161-164); no `ProtocolError`
class exists anywhere in the repository. -/
inductive PyError
  | valueError
  | protocolError
deriving DecidableEq

/-- The pickle half of `deserialize` (`protocol.py` lines 128-161): a
`frame_data` or `detection_result` dict is reconstructed; any other tag
raises `ValueError("Unknown message type")`; a pickle failure propagates
to the outer `except`, which wraps everything in `ValueError`. -/
def deserializePickle (pk : PickleOutcome) : Except PyError PyMessage :=
  match pk with
  | .frame fd => .ok (.frameData fd)
  | .detectionResult r => .ok (.detectionResult r)
  | .otherTag _ => .error .valueError
  | .loadFail => .error .valueError

/-- `MessageProtocol.deserialize` (`protocol.py` lines 94-164): JSON is
tried FIRST; the three JSON-dispatched tags return immediately; a
recognized tag with a missing field raises `KeyError`, caught by the outer
`except Exception` and re-raised as `ValueError`; valid JSON with any
other tag silently FALLS THROUGH to `pickle.loads`, as does a JSON parse
failure.  Every failure surfaces as `ValueError`. -/
def deserialize (data : WireBytes) : Except PyError PyMessage :=
  match data.json with
  | .system mt pl ts => .ok (.systemMessage mt pl ts)
  | .metrics a b c d e f => .ok (.performanceMetrics a b c d e f)
  | .log l c m ts fid => .ok (.logMessage l c m ts fid)
  | .badBody _ => .error .valueError
  | .otherTag _ => deserializePickle data.pickle
  | .decodeFail => deserializePickle data.pickle

/-- C2: the code contradicts the claim and the spec's own mandate.  At the
failing inputs: (a) a byte string that is not valid JSON but is a valid
pickle of a `frame_data` dict is decoded by the pickle FALLBACK — a second
format is tried after the first fails; (b) a byte string that is valid
JSON with the unrecognized tag `"mystery"` is not rejected at the single
JSON dispatch but re-parsed as pickle, and when that also fails the error
raised is `ValueError`, not `ProtocolError`; (c) the same valid-JSON bytes
are even decoded as a frame when they happen to also parse as pickle. -/
theorem C2_fallback_and_valueerror :
    deserialize { json := .decodeFail, pickle := .frame fd0 } = .ok (.frameData fd0)
      ∧ deserialize { json := .otherTag (some "mystery"), pickle := .loadFail }
          = .error .valueError
      ∧ deserialize { json := .otherTag (some "mystery"), pickle := .frame fd0 }
          = .ok (.frameData fd0)
      ∧ deserialize { json := .otherTag (some "mystery"), pickle := .loadFail }
          ≠ .error .protocolError := by
  refine ⟨rfl, rfl, rfl, ?_⟩
  simp [deserialize, deserializePickle]

/-- In-flight messages of a channel socket; the detector-input channel
carries serialized frames. -/
inductive SockMsg
  | frame (fd : FrameData)
deriving DecidableEq

/-- A ZeroMQ socket as configured by `ZMQManager.__init__`
(`zmq_manager.py` lines 25-34): its in-flight buffer and its send
high-water-mark.  Modelled from the spec: the queueing behaviour of the
external ZeroMQ transport is the §4.2 channel contract — a bounded buffer
that accepts a non-blocking send while below the high-water-mark and
signals `WouldBlock` (zmq.Again) once full. -/
structure ZSocket where
  queue : List SockMsg
  sndhwm : Nat
deriving DecidableEq

/-- Modelled from the spec: `socket.send(data, zmq.NOBLOCK)` against the
high-water-mark — enqueue and succeed when the buffer is below `sndhwm`,
otherwise leave the buffer unchanged and raise `zmq.Again`
(returned here as `false`). -/
def socketSendNoblock (s : ZSocket) (m : SockMsg) : ZSocket × Bool :=
  if s.queue.length < s.sndhwm then ({ s with queue := s.queue ++ [m] }, true)
  else (s, false)

/-- Modelled from the spec: the consumer side draining one in-flight
message (one slot frees up). -/
def socketRecvOne (s : ZSocket) : ZSocket × Option SockMsg :=
  match s.queue with
  | [] => (s, none)
  | m :: rest => ({ s with queue := rest }, some m)

/-- The `ZMQManager` object state relevant to sending. -/
structure ZMQManagerState where
  is_connected : Bool
  socket : ZSocket
deriving DecidableEq

/-- `ZMQManager.__init__` (`zmq_manager.py` lines 16-44): fresh context and
socket, `SNDHWM`/`RCVHWM` set to 10, not yet connected. -/
def ZMQManager.init : ZMQManagerState :=
  { is_connected := false, socket := { queue := [], sndhwm := 10 } }

/-- `ZMQManager.send_frame_data` (`zmq_manager.py` lines 71-87): refuse
when not connected; otherwise serialize and perform exactly one
non-blocking send, returning `False` on `zmq.Again` without retrying. -/
def send_frame_data (mgr : ZMQManagerState) (fd : FrameData) : ZMQManagerState × Bool :=
  if mgr.is_connected = false then (mgr, false)
  else
    let r := socketSendNoblock mgr.socket (.frame fd)
    ({ mgr with socket := r.1 }, r.2)

/-- C4: sends never block and are never retried — one call performs at
most one enqueue attempt and returns immediately; once the buffer holds
the high-water-mark of 10 in-flight messages, `send` fails
(`WouldBlock`/`zmq.Again`, returned as `false`) and leaves the manager
unchanged; after one slot drains, the next send succeeds. -/
theorem C4_backpressure (mgr : ZMQManagerState) (fd fd2 : FrameData)
    (hc : mgr.is_connected = true) (hh : mgr.socket.sndhwm = 10)
    (hq : mgr.socket.queue.length = 10) :
    send_frame_data mgr fd = (mgr, false)
      ∧ (send_frame_data { mgr with socket := (socketRecvOne mgr.socket).1 } fd2).2 = true
      ∧ (∀ (m : ZMQManagerState) (f : FrameData),
            ((send_frame_data m f).2 = false → (send_frame_data m f).1 = m)
          ∧ ((send_frame_data m f).1.socket.queue = m.socket.queue
              ∨ (send_frame_data m f).1.socket.queue
                  = m.socket.queue ++ [SockMsg.frame f])) := by
  obtain ⟨conn, sock⟩ := mgr
  simp only at hc hh hq
  subst hc
  refine ⟨?_, ?_, ?_⟩
  · simp [send_frame_data, socketSendNoblock, hh, hq]
  · rcases hlist : sock.queue with _ | ⟨m, rest⟩
    · simp [hlist] at hq
    · have hr : rest.length = 9 := by
        have := hq; rw [hlist] at this; simpa using this
      simp [send_frame_data, socketRecvOne, hlist, socketSendNoblock, hh, hr]
  · intro m f
    constructor
    · intro hfail
      by_cases hcm : m.is_connected = false
      · simp [send_frame_data, hcm]
      · simp only [send_frame_data, if_neg hcm] at hfail ⊢
        unfold socketSendNoblock at hfail ⊢
        by_cases hlen : m.socket.queue.length < m.socket.sndhwm
        · simp [hlen] at hfail
        · simp [hlen]
    · by_cases hcm : m.is_connected = false
      · left; simp [send_frame_data, hcm]
      · simp only [send_frame_data, if_neg hcm]
        unfold socketSendNoblock
        by_cases hlen : m.socket.queue.length < m.socket.sndhwm
        · right; simp [hlen]
        · left; simp [hlen]

/-- A full manager whose buffer already holds 10 in-flight frames, for the
C4 witness. -/
def mgrFull : ZMQManagerState :=
  { is_connected := true
    socket := { queue := List.replicate 10 (.frame fd0), sndhwm := 10 } }

/-- Witness for C4_backpressure at a concretely full channel. -/
theorem C4_backpressure_witness :
    (mgrFull.is_connected = true ∧ mgrFull.socket.sndhwm = 10
        ∧ mgrFull.socket.queue.length = 10)
      ∧ (send_frame_data mgrFull fd0 = (mgrFull, false)
          ∧ (send_frame_data { mgrFull with socket := (socketRecvOne mgrFull.socket).1 } fd0).2
              = true
          ∧ (∀ (m : ZMQManagerState) (f : FrameData),
                ((send_frame_data m f).2 = false → (send_frame_data m f).1 = m)
              ∧ ((send_frame_data m f).1.socket.queue = m.socket.queue
                  ∨ (send_frame_data m f).1.socket.queue
                      = m.socket.queue ++ [SockMsg.frame f]))) :=
  ⟨⟨rfl, rfl, rfl⟩, C4_backpressure mgrFull fd0 fd0 rfl rfl rfl⟩

/-- The lifecycle-relevant state of a `MotionDetector` object: its
processing state plus the `is_processing` flag (`motion_detector.py`
lines 34-49). -/
structure MotionDetectorObj where
  st : DetectorState
  is_processing : Bool
deriving DecidableEq

/-- `MotionDetector.start_detection` (`motion_detector.py` lines 75-97):
returns `True` immediately when already processing; returns `False` when
channel setup fails (`setup_ok` stands for `setup_communication()`'s
outcome, which depends on external socket binds); otherwise resets
`prev_frame`, `frame_counter` and `total_detections`, launches the loop
thread and sets `is_processing`, returning `True`. -/
def start_detection (setup_ok : Bool) (d : MotionDetectorObj) : MotionDetectorObj × Bool :=
  if d.is_processing then (d, true)
  else if setup_ok = false then (d, false)
  else ({ st := { prev_frame := none, frame_counter := 0, total_detections := 0 }
          is_processing := true }, true)

/-- `MotionDetector.stop_detection` (`motion_detector.py` lines 99-112):
no-op when not processing; otherwise signals the loop, joins the thread,
clears `is_processing` and closes the channels. -/
def stop_detection (d : MotionDetectorObj) : MotionDetectorObj :=
  if d.is_processing then { d with is_processing := false } else d

/-- A detector that has run (nonzero counters) and is processing, for the
C7 counterexample. -/
def runningDet : MotionDetectorObj :=
  { st := { prev_frame := some [7], frame_counter := 5, total_detections := 3 }
    is_processing := true }

/-- C7 counterexample: Stopped is NOT terminal.  Stopping a running
detector and then calling `start_detection` (with channel setup
succeeding) returns `True` and puts the stage back into the running state,
refuting "no subsequent sequence of operations — in particular no call to
start() — returns it to the Running state". -/
theorem C7_restart_counterexample :
    (stop_detection runningDet).is_processing = false
      ∧ (start_detection true (stop_detection runningDet)).2 = true
      ∧ (start_detection true (stop_detection runningDet)).1.is_processing = true := by
  refine ⟨rfl, rfl, rfl⟩

/-- C7 (amended): a stopped detector is restartable — `start_detection`
after `stop_detection`, with channel setup succeeding, resets the
algorithm state (`prev_frame`, `frame_counter`, `total_detections`) and
returns the stage to Running, reporting success. -/
theorem C7_stopped_restartable (d : MotionDetectorObj) :
    start_detection true (stop_detection d)
      = ({ st := { prev_frame := none, frame_counter := 0, total_detections := 0 }
           is_processing := true }, true) := by
  unfold stop_detection start_detection
  by_cases h : d.is_processing <;> simp [h]

/-- `LogMessage` from `src/src/core/data_models.py` (the fields the
aggregator reads). -/
structure LogMessage where
  level : String
  component : String
  message : String
  timestamp : Rat
  frame_id : Option Int
deriving DecidableEq

/-- A Python dict of counters (`str -> int`), as an insertion-ordered
association list with unique keys — the shape `d[k] = d.get(k, 0) + 1`
maintains. -/
abbrev CountDict := List (String × Nat)

/-- `d[k] = d.get(k, 0) + 1`: bump the entry for `k` in place, or append a
fresh entry `(k, 1)` when absent. -/
def dictIncr : CountDict → String → CountDict
  | [], k => [(k, 1)]
  | (k', v) :: rest, k =>
      if k' = k then (k', v + 1) :: rest else (k', v) :: dictIncr rest k

/-- The total of all counts in a dict. -/
def dictSum (d : CountDict) : Nat := (d.map Prod.snd).sum

/-- The `CentralizedLogger` state the aggregator loop mutates
(`centralized_logger.py` lines 36-39): the lines appended to the log file
after the header (each append is one formatted record), the total count
and the per-level / per-component dicts. -/
structure CLState where
  lines : List LogMessage
  messages_logged : Nat
  messages_by_level : CountDict
  messages_by_component : CountDict
deriving DecidableEq

/-- The aggregator state right after `start_logging` resets it
(`centralized_logger.py` lines 75-78): empty file body, zero counts, the
five severity levels pre-seeded at 0, no components. -/
def initCLState : CLState :=
  { lines := []
    messages_logged := 0
    messages_by_level :=
      [("DEBUG", 0), ("INFO", 0), ("WARNING", 0), ("ERROR", 0), ("CRITICAL", 0)]
    messages_by_component := [] }

/-- `CentralizedLogger._process_log_message` (`centralized_logger.py`
lines 131-152): append the formatted record as one line (flushed
immediately), bump the total, the record's level count and the record's
component count. -/
def process_log_message (st : CLState) (m : LogMessage) : CLState :=
  { lines := st.lines ++ [m]
    messages_logged := st.messages_logged + 1
    messages_by_level := dictIncr st.messages_by_level m.level
    messages_by_component := dictIncr st.messages_by_component m.component }

/-- One observed iteration input of `CentralizedLogger._logging_loop`
(`centralized_logger.py` lines 105-129). -/
inductive LogInput
  | timeout
  | sys (message_type : String)
  | log (m : LogMessage)
deriving DecidableEq

/-- `_logging_loop` over a finite observation of its inputs: timeouts and
system messages (including `end_of_stream`) are skipped, each `LogMessage`
goes through `_process_log_message`. -/
def logging_loop : CLState → List LogInput → CLState
  | st, [] => st
  | st, .timeout :: rest => logging_loop st rest
  | st, .sys _ :: rest => logging_loop st rest
  | st, .log m :: rest => logging_loop (process_log_message st m) rest

/-- The per-level entries the footer prints (`centralized_logger.py`
lines 173-176): only levels with a positive count. -/
def footerLevelEntries (st : CLState) : CountDict :=
  st.messages_by_level.filter (fun p => 0 < p.2)

/-- The per-component entries the footer prints (`centralized_logger.py`
lines 177-179): all of them. -/
def footerComponentEntries (st : CLState) : CountDict :=
  st.messages_by_component

/-- The number of `LogMessage` inputs in an observation. -/
def countLogInputs (inputs : List LogInput) : Nat :=
  (inputs.filter (fun i => match i with | .log _ => true | _ => false)).length

theorem dictSum_dictIncr (d : CountDict) (k : String) :
    dictSum (dictIncr d k) = dictSum d + 1 := by
  induction d with
  | nil => rfl
  | cons p rest ih =>
      by_cases h : p.1 = k
      · simp [dictIncr, h, dictSum, List.map_cons]
        omega
      · simp only [dictIncr]
        rw [if_neg (by simpa using h)]
        simp only [dictSum, List.map_cons, List.sum_cons] at ih ⊢
        omega

theorem dictSum_filter_pos (d : CountDict) :
    dictSum (d.filter (fun p => 0 < p.2)) = dictSum d := by
  induction d with
  | nil => rfl
  | cons p rest ih =>
      by_cases h : 0 < p.2
      · simp [List.filter_cons, h, dictSum, List.map_cons, dictSum] at ih ⊢
        omega
      · have hz : p.2 = 0 := by omega
        simp [List.filter_cons, h, dictSum, List.map_cons, hz] at ih ⊢
        omega

theorem logging_loop_counts (inputs : List LogInput) :
    ∀ st : CLState,
      (logging_loop st inputs).lines.length = st.lines.length + countLogInputs inputs
        ∧ (logging_loop st inputs).messages_logged
            = st.messages_logged + countLogInputs inputs
        ∧ dictSum (logging_loop st inputs).messages_by_level
            = dictSum st.messages_by_level + countLogInputs inputs
        ∧ dictSum (logging_loop st inputs).messages_by_component
            = dictSum st.messages_by_component + countLogInputs inputs := by
  induction inputs with
  | nil => intro st; simp [logging_loop, countLogInputs]
  | cons x rest ih =>
      intro st
      cases x with
      | timeout => simpa [logging_loop, countLogInputs, List.filter_cons] using ih st
      | sys mt => simpa [logging_loop, countLogInputs, List.filter_cons] using ih st
      | log m =>
          obtain ⟨h1, h2, h3, h4⟩ := ih (process_log_message st m)
          have hc : countLogInputs (LogInput.log m :: rest) = countLogInputs rest + 1 := by
            simp [countLogInputs, List.filter_cons]
          have hl : logging_loop st (LogInput.log m :: rest)
              = logging_loop (process_log_message st m) rest := rfl
          rw [hl, hc]
          refine ⟨?_, ?_, ?_, ?_⟩
          · rw [h1]; simp [process_log_message]; omega
          · rw [h2]; simp [process_log_message]; omega
          · rw [h3]; simp [process_log_message, dictSum_dictIncr]; omega
          · rw [h4]; simp [process_log_message, dictSum_dictIncr]; omega

/-- C8: processing any interleaved sequence of inputs containing N log
records from a fresh aggregator appends exactly N lines to the log file
(one per record), and the shutdown footer's per-level counts (levels with
positive counts, as printed) and per-component counts each sum to N. -/
theorem C8_aggregator_counts (inputs : List LogInput) :
    (logging_loop initCLState inputs).lines.length = countLogInputs inputs
      ∧ (logging_loop initCLState inputs).messages_logged = countLogInputs inputs
      ∧ dictSum (footerLevelEntries (logging_loop initCLState inputs)) = countLogInputs inputs
      ∧ dictSum (footerComponentEntries (logging_loop initCLState inputs))
          = countLogInputs inputs := by
  obtain ⟨h1, h2, h3, h4⟩ := logging_loop_counts inputs initCLState
  refine ⟨?_, ?_, ?_, ?_⟩
  · simpa [initCLState] using h1
  · simpa [initCLState] using h2
  · rw [footerLevelEntries, dictSum_filter_pos, h3]
    simp [initCLState, dictSum]
  · rw [footerComponentEntries, h4]
    simp [initCLState, dictSum]

end VMD
